import Mathlib

/-!
Verification development for the inference-serving shim in
`src/docker/run_model_api.py`.

The Python module is shallowly embedded: dictionaries become association
lists over an inductive `PyVal` type, fallible Python operations (float
coercion, ordered comparison with a non-number, `.upper()` on a non-string,
`*` on an unsupported operand) become `Except String` computations, and an
uncaught Python exception is an `Except.error` escaping a function.
External collaborators (the filesystem, joblib/pickle, `pd.to_datetime`,
`datetime.now()`, and the deserialized model artifact) are parameters
gathered in an `Env` structure, so theorems quantify over their behavior.
-/

/-- Python/JSON values as they may appear in the `input_data` dictionary. -/
inductive PyVal where
  | num (q : ℚ)
  | str (s : String)
  | pynone
  | list (xs : List PyVal)
  | dict (kvs : List (String × PyVal))

/-- Python `data.get(k, dflt)` on a dictionary. -/
def pyGet (d : List (String × PyVal)) (k : String) (dflt : PyVal) : PyVal :=
  match d.lookup k with
  | some v => v
  | none => dflt

/-- Python `data.get(k1, data.get(k2, dflt))`. -/
def pyGet2 (d : List (String × PyVal)) (k1 k2 : String) (dflt : PyVal) : PyVal :=
  pyGet d k1 (pyGet d k2 dflt)

/-- Python `data.get(k1, data.get(k2, data.get(k3, dflt)))`. -/
def pyGet3 (d : List (String × PyVal)) (k1 k2 k3 : String) (dflt : PyVal) : PyVal :=
  pyGet d k1 (pyGet d k2 (pyGet d k3 dflt))

/-- Value of a digit list read in base 10. -/
def digitsVal (cs : List Char) : Nat :=
  cs.foldl (fun a c => a * 10 + (c.toNat - 48)) 0

/-- Parse a plain decimal literal (optional sign, digits, optional fractional
part) the way Python `float(str)` accepts it; anything else fails, as
`float("abc")` does. Exotic accepted forms (exponents, `inf`, `nan`,
surrounding whitespace) are not needed by any input considered here. -/
def parseFloatStr (s : String) : Option ℚ :=
  let cs0 := s.data
  let sgn : ℚ := match cs0 with | '-' :: _ => -1 | _ => 1
  let cs := match cs0 with | '-' :: r => r | '+' :: r => r | _ => cs0
  let ip := cs.takeWhile Char.isDigit
  let rest := cs.dropWhile Char.isDigit
  match rest with
  | [] => if ip.isEmpty then none else some (sgn * digitsVal ip)
  | '.' :: fp =>
      if fp.all Char.isDigit && !(ip.isEmpty && fp.isEmpty) then
        some (sgn * ((digitsVal ip : ℚ) + (digitsVal fp : ℚ) / (10 : ℚ) ^ fp.length))
      else none
  | _ => none

/-- Python `float(v)`; raises on values that cannot be coerced. -/
def pyFloat : PyVal → Except String ℚ
  | .num q => .ok q
  | .str s =>
      match parseFloatStr s with
      | some q => .ok q
      | none => .error "ValueError: could not convert string to float"
  | .pynone => .error "TypeError: float() argument must not be None"
  | .list _ => .error "TypeError: float() argument must not be a list"
  | .dict _ => .error "TypeError: float() argument must not be a dict"

/-- Python `v < n` for a numeric literal `n`; comparing a non-number with a
number raises `TypeError`. -/
def pyLtQ : PyVal → ℚ → Except String Bool
  | .num q, n => .ok (decide (q < n))
  | _, _ => .error "TypeError: unorderable types"

/-- Python `v > n` for a numeric literal `n`. -/
def pyGtQ : PyVal → ℚ → Except String Bool
  | .num q, n => .ok (decide (q > n))
  | _, _ => .error "TypeError: unorderable types"

/-- Python `v * n` for an int literal `n` (numbers multiply, strings and lists
repeat, everything else raises `TypeError`). Used by the default expressions
`current_queue * 3` and `current_queue * 2`. -/
def pyMulNat : PyVal → Nat → Except String PyVal
  | .num q, n => .ok (.num (q * n))
  | .str s, n => .ok (.str (String.join (List.replicate n s)))
  | .list xs, n => .ok (.list (List.flatten (List.replicate n xs)))
  | _, _ => .error "TypeError: unsupported operand type for mult"

/-- Python `v == "lit"`: equality against a string literal (false across
types, never raises). -/
def pyEqStr : PyVal → String → Bool
  | .str s, t => s == t
  | _, _ => false

/-- Python `v == n` for a numeric literal (false across types). -/
def pyEqQ : PyVal → ℚ → Bool
  | .num q, n => q == n
  | _, _ => false

/-- Python `v in [n1, ..., nk]` for a list of numeric literals. -/
def pyInQList (v : PyVal) (ns : List ℚ) : Bool :=
  ns.any (fun n => pyEqQ v n)

/-- Python `v.upper()`: raises `AttributeError` on non-strings. -/
def pyUpper : PyVal → Except String String
  | .str s => .ok s.toUpper
  | _ => .error "AttributeError: object has no attribute upper"

/-- The two components of a parsed timestamp that the code reads:
`.hour` and `.weekday()`. -/
structure Timestamp where
  hour : Nat
  weekday : Nat

/-- Lines 32-36: resolve the timestamp. `parseTs` stands for the external
`pd.to_datetime` (`none` models a raised parse error), `now` for
`datetime.now()`; a missing key defaults to `datetime.now().isoformat()`,
which parses back to `now`, and a failed parse also falls back to `now`. -/
def resolveTs (parseTs : PyVal → Option Timestamp) (now : Timestamp)
    (data : List (String × PyVal)) : Timestamp :=
  match data.lookup "timestamp" with
  | some v => (parseTs v).getD now
  | none => now

/-- Lines 62-73: the weather one-hot triple, ordered (Clear, Fog, Rain).
Python `or` short-circuits, so the temperature comparison is only evaluated
when the string comparison is false. -/
def weatherOneHot (cond temp : PyVal) : Except String (ℚ × ℚ × ℚ) := do
  let fog ← if pyEqStr cond "Fog" then pure true else pyLtQ temp 10
  if fog then
    pure (0, 1, 0)
  else
    let rain ← if pyEqStr cond "Rain" then pure true else pyGtQ temp 35
    if rain then pure (0, 0, 1) else pure (1, 0, 0)

/-- Lines 76-79: the status one-hot triple, ordered
(DEGRADED, MAINTENANCE, OPERATIONAL), from the upper-cased status value. -/
def statusOneHot (sv : PyVal) : Except String (ℚ × ℚ × ℚ) := do
  let status ← pyUpper sv
  pure (if status = "DEGRADED" then (1 : ℚ) else 0,
        if status = "MAINTENANCE" then (1 : ℚ) else 0,
        if status = "OPERATIONAL" then (1 : ℚ) else 0)

/-- Line 82: the fixed station roster. -/
def station_ids : List String :=
  ["STATION_000", "STATION_001", "STATION_002", "STATION_003", "STATION_004"]

/-- Lines 81-86: station-id one-hot with the default fix-up to slot 0 when
nothing matched. -/
def stationOneHot (sid : PyVal) : List ℚ :=
  let oh := station_ids.map (fun s => if pyEqStr sid s then (1 : ℚ) else 0)
  if oh.sum = 0 then oh.set 0 1 else oh

/-- All intermediate values resolved by lines 32-89 of
`preprocess_features`, before vector assembly. -/
structure Resolved where
  hour_of_day : Nat
  day_of_week : Nat
  current_queue : PyVal
  battery_level : PyVal
  energy_demand : PyVal
  weather_temp : PyVal
  station_reliability : PyVal
  energy_stability : PyVal
  station_id : PyVal
  avg_wait_time : PyVal
  available_batteries : PyVal
  total_batteries : PyVal
  available_chargers : PyVal
  total_chargers : PyVal
  power_usage_kw : PyVal
  power_capacity_kw : PyVal
  weather : ℚ × ℚ × ℚ
  statusT : ℚ × ℚ × ℚ
  station_one_hot : List ℚ
  is_peak_hour : ℚ
  traffic_factor : ℚ

/-- Lines 38-89 of `preprocess_features`, at an already-resolved timestamp:
field resolution with snake_case/camelCase aliases and defaults, one-hot
groups, and the derived peak-hour/traffic values. Default expressions such as
`current_queue * 3` are evaluated eagerly, as Python evaluates `get`
arguments. -/
def resolveFieldsAt (ts : Timestamp) (data : List (String × PyVal)) :
    Except String Resolved := do
  let hour_of_day := ts.hour
  let day_of_week := ts.weekday
  let is_weekend := decide (ts.weekday ≥ 5)
  let current_queue := pyGet3 data "current_queue" "currentQueue" "queue_length" (.num 5)
  let battery_level := pyGet2 data "battery_level" "batteryLevel" (.num 50)
  let energy_demand := pyGet2 data "energy_demand" "energyDemand" (.num 100)
  let weather_temp := pyGet2 data "weather_temp" "weatherTemp" (.num 25)
  let station_reliability :=
    pyGet3 data "station_reliability" "stationReliability" "station_reliability_score" (.num 0.9)
  let energy_stability :=
    pyGet3 data "energy_stability" "energyStability" "energy_stability_index" (.num 0.9)
  let station_id := pyGet2 data "station_id" "stationId" (.str "STATION_000")
  let awDefault ← pyMulNat current_queue 3
  let avg_wait_time := pyGet2 data "avg_wait_time" "avgWaitTime" awDefault
  let abDefault ← pyMulNat current_queue 2
  let available_batteries := pyGet2 data "available_batteries" "availableBatteries" abDefault
  let total_batteries := pyGet2 data "total_batteries" "totalBatteries" (.num 50)
  let available_chargers := pyGet2 data "available_chargers" "availableChargers" (.num 10)
  let total_chargers := pyGet2 data "total_chargers" "totalChargers" (.num 15)
  let power_usage_kw := pyGet2 data "power_usage_kw" "powerUsageKw" energy_demand
  let power_capacity_kw := pyGet2 data "power_capacity_kw" "powerCapacityKw" (.num 200)
  let weather_condition := pyGet2 data "weather_condition" "weatherCondition" (.str "Clear")
  let weather ← weatherOneHot weather_condition weather_temp
  let statusT ← statusOneHot (pyGet data "status" (.str "OPERATIONAL"))
  let station_one_hot := stationOneHot station_id
  let is_peak_hour : ℚ := if hour_of_day ∈ [8, 9, 17, 18, 19] then 1 else 0
  let traffic_factor : ℚ := if is_weekend then 1.2 else 1.0
  pure { hour_of_day, day_of_week, current_queue, battery_level, energy_demand,
         weather_temp, station_reliability, energy_stability, station_id,
         avg_wait_time, available_batteries, total_batteries, available_chargers,
         total_chargers, power_usage_kw, power_capacity_kw, weather, statusT,
         station_one_hot, is_peak_hour, traffic_factor }

/-- Lines 32-89 of `preprocess_features`: resolve the timestamp, then every
field. -/
def resolveFields (parseTs : PyVal → Option Timestamp) (now : Timestamp)
    (data : List (String × PyVal)) : Except String Resolved :=
  resolveFieldsAt (resolveTs parseTs now data) data

/-- Lines 91-163 of `preprocess_features`: assemble the ordered feature
vector for the given model type ("fault" gets 25 features, everything else
the 23-feature standard layout), coercing each stored input with
`float(...)` in source order. -/
def buildVector (model_type : String) (r : Resolved) : Except String (List ℚ) :=
  if model_type = "fault" then do
    let q ← pyFloat r.current_queue
    let ab ← pyFloat r.available_batteries
    let tb ← pyFloat r.total_batteries
    let ac ← pyFloat r.available_chargers
    let tc ← pyFloat r.total_chargers
    let aw ← pyFloat r.avg_wait_time
    let pu ← pyFloat r.power_usage_kw
    let pc ← pyFloat r.power_capacity_kw
    let sr ← pyFloat r.station_reliability
    let es ← pyFloat r.energy_stability
    pure [q, ab, tb, ac, tc, aw, pu, pc,
          (r.hour_of_day : ℚ), (r.day_of_week : ℚ), r.is_peak_hour, r.traffic_factor,
          sr, es, r.weather.1, r.weather.2.1, r.weather.2.2,
          r.statusT.1, r.statusT.2.1, r.statusT.2.2,
          r.station_one_hot.getD 0 0, r.station_one_hot.getD 1 0,
          r.station_one_hot.getD 2 0, r.station_one_hot.getD 3 0,
          r.station_one_hot.getD 4 0]
  else do
    let ab ← pyFloat r.available_batteries
    let tb ← pyFloat r.total_batteries
    let ac ← pyFloat r.available_chargers
    let tc ← pyFloat r.total_chargers
    let pu ← pyFloat r.power_usage_kw
    let pc ← pyFloat r.power_capacity_kw
    let sr ← pyFloat r.station_reliability
    let es ← pyFloat r.energy_stability
    pure [ab, tb, ac, tc, pu, pc,
          (r.hour_of_day : ℚ), (r.day_of_week : ℚ), r.is_peak_hour, r.traffic_factor,
          sr, es, r.weather.1, r.weather.2.1, r.weather.2.2,
          r.statusT.1, r.statusT.2.1, r.statusT.2.2,
          r.station_one_hot.getD 0 0, r.station_one_hot.getD 1 0,
          r.station_one_hot.getD 2 0, r.station_one_hot.getD 3 0,
          r.station_one_hot.getD 4 0]

/-- Lines 22-163: `preprocess_features(data, model_type)`. The result mirrors
`np.array([feature_vector])`: a single-row 2-D array. -/
def preprocess_features (parseTs : PyVal → Option Timestamp) (now : Timestamp)
    (data : List (String × PyVal)) (model_type : String) :
    Except String (List (List ℚ)) := do
  let r ← resolveFields parseTs now data
  let fv ← buildVector model_type r
  pure [fv]

/-- `os.path.basename` on POSIX paths: the part after the last slash. -/
def basename (p : String) : String :=
  (p.splitOn "/").getLastD ""

/-- Whether the character sequence `pat` occurs at the front of `s`. -/
def chSeqAt : List Char → List Char → Bool
  | [], _ => true
  | _ :: _, [] => false
  | p :: ps, c :: cs => p == c && chSeqAt ps cs

/-- Whether the character sequence `pat` occurs anywhere in `s`. -/
def chSeqIn (pat : List Char) : List Char → Bool
  | [] => pat.isEmpty
  | c :: cs => chSeqAt pat (c :: cs) || chSeqIn pat cs

/-- Python `pat in s` for strings: substring occurrence. -/
def strIn (pat s : String) : Bool :=
  chSeqIn pat.data s.data

/-- Lines 165-176: `get_model_type(model_path)`. -/
def get_model_type (model_path : String) : String :=
  let model_name := (basename model_path).toLower
  if strIn "fault" model_name then "fault"
  else if strIn "recommender" model_name then "recommender"
  else if strIn "gemini" model_name || strIn "llm" model_name then "llm"
  else "standard"

/-- Modelled from the spec: the Model Type Classifier algorithm as worded in
section 4.1 ("lower-case the base filename; test substrings in order `fault`,
`recommender`, (`gemini` or `llm`) -> `llm`; if none match, return
`standard`"), to be compared with `get_model_type`. -/
def classifySpec (modelIdentifier : String) : String :=
  let name := (basename modelIdentifier).toLower
  if strIn "fault" name then "fault"
  else if strIn "recommender" name then "recommender"
  else if strIn "gemini" name then "llm"
  else if strIn "llm" name then "llm"
  else "standard"

/-- A JSON response from the `/predict` handler: the union of the key sets
the handler can emit. An absent key is `none`; `fallback` records whether the
`"fallback": True` key is present. -/
structure Response where
  prediction : Option PyVal := none
  probabilities : Option (List ℚ) := none
  recommendation_score : Option ℚ := none
  recommendation : Option PyVal := none
  explanation : Option PyVal := none
  fallback : Bool := false

/-- Lines 178-213: `get_fallback_prediction(model_path, input_data)`.
The `queue` and `wait` branches coerce the resolved `current_queue` with
`float(...)`, which can raise; an `Except.error` models that exception. -/
def get_fallback_prediction (model_path : String)
    (input_data : List (String × PyVal)) : Except String Response := do
  let model_name := (basename model_path).toLower
  let current_queue := pyGet2 input_data "current_queue" "currentQueue" (.num 5)
  let hour_of_day := pyGet input_data "hour_of_day" (.num 12)
  if strIn "traffic" model_name then
    let base : ℚ := 0.5 + (if pyInQList hour_of_day [8, 9, 17, 18, 19] then 0.2 else 0)
    pure { prediction := some (.num (min 0.9 base)), fallback := true }
  else if strIn "fault" model_name then
    pure { prediction := some (.num 0.15), probabilities := some [0.85, 0.15],
           fallback := true }
  else if strIn "queue" model_name then
    let q ← pyFloat current_queue
    pure { prediction := some (.num q), fallback := true }
  else if strIn "wait" model_name then
    let w ← pyMulNat current_queue 3
    let q ← pyFloat w
    pure { prediction := some (.num q), fallback := true }
  else if strIn "demand" model_name || strIn "arrival" model_name then
    pure { prediction := some (.num 0.6), fallback := true }
  else if strIn "rebalance" model_name then
    pure { prediction := some (.num 0.4), fallback := true }
  else if strIn "stock" model_name || strIn "order" model_name then
    pure { prediction := some (.num 0.5), fallback := true }
  else if strIn "staff" model_name || strIn "diversion" model_name then
    pure { prediction := some (.num 0.3), fallback := true }
  else if strIn "tieup" model_name || strIn "storage" model_name then
    pure { prediction := some (.num 0.4), fallback := true }
  else if strIn "action" model_name then
    pure { prediction := some (.num 0), probabilities := some [0.8, 0.15, 0.05],
           fallback := true }
  else if strIn "recommender" model_name then
    pure { prediction := some (.num 0.75), recommendation_score := some 0.75,
           fallback := true }
  else if strIn "gemini" model_name || strIn "llm" model_name then
    pure { explanation := some (.str "This station is recommended based on optimal availability, minimal wait time, and reliable service."),
           fallback := true }
  else
    pure { prediction := some (.num 0.5), fallback := true }

/-- Capability view of a deserialized model artifact (external collaborator):
the duck-typed attribute checks become booleans and the callable capabilities
become `Except`-valued functions (an `error` models a raised exception). -/
structure MLModel where
  hasPredictProba : Bool
  hasGetRecommendation : Bool
  hasGenerate : Bool
  predictFn : List (List ℚ) → Except String (List PyVal)
  predictProbaFn : List (List ℚ) → Except String (List (List PyVal))
  getRecommendationFn : PyVal → PyVal → Except String PyVal
  generateFn : PyVal → Except String PyVal

/-- The external collaborators of the `/predict` handler: the filesystem
check, the two deserialization strategies, timestamp parsing and the clock. -/
structure Env where
  fileExists : String → Bool
  loadJoblib : String → Except String MLModel
  loadPickle : String → Except String MLModel
  parseTs : PyVal → Option Timestamp
  now : Timestamp

/-- Lines 242-286: invoke a successfully loaded model according to the
detected model type. -/
def invokeModel (env : Env) (model : MLModel) (model_type : String)
    (input_data : List (String × PyVal)) : Except String Response := do
  if model_type = "recommender" then
    let stations_data := pyGet input_data "stations" (.list [.dict input_data])
    let user_context := pyGet input_data "user_context" (.dict [])
    if model.hasGetRecommendation then
      let result ← model.getRecommendationFn stations_data user_context
      pure { recommendation := some result }
    else
      pure { prediction := some (.num 0.75), recommendation_score := some 0.75 }
  else if model_type = "llm" then
    let prompt := pyGet input_data "prompt" (.str "")
    let _context := pyGet input_data "context" (.dict [])
    if model.hasGenerate then
      let result ← model.generateFn prompt
      pure { explanation := some result }
    else
      pure { explanation := some (.str "This station is recommended based on optimal availability and minimal wait time.") }
  else
    let features ← preprocess_features env.parseTs env.now input_data model_type
    if model.hasPredictProba then
      let probaRows ← model.predictProbaFn features
      let probaRow ← (match probaRows with
        | [] => Except.error "IndexError: index 0 is out of bounds"
        | r :: _ => pure r)
      let preds ← model.predictFn features
      let prediction ← (match preds with
        | [] => Except.error "IndexError: index 0 is out of bounds"
        | p :: _ => pure p)
      let proba ← probaRow.mapM pyFloat
      pure { prediction := some prediction, probabilities := some proba }
    else
      let result ← model.predictFn features
      if result.length = 1 then
        let p ← pyFloat (result.getD 0 .pynone)
        pure { prediction := some (.num p) }
      else
        let ps ← result.mapM pyFloat
        pure { prediction := some (.list (ps.map PyVal.num)) }

/-- Lines 228-286: the body of the `try` block. When both deserialization
strategies fail, the code returns `get_fallback_prediction` from inside the
`try`, so an exception raised by the fallback itself propagates to the
handler's `except` clause. -/
def predictTry (env : Env) (model_path model_type : String)
    (input_data : List (String × PyVal)) : Except String Response :=
  match env.loadJoblib model_path with
  | .ok model => invokeModel env model model_type input_data
  | .error _ =>
    match env.loadPickle model_path with
    | .ok model => invokeModel env model model_type input_data
    | .error _ => get_fallback_prediction model_path input_data

/-- Lines 215-292: the `/predict` handler. A final `Except.error` models an
uncaught Python exception escaping to the HTTP layer. -/
def predict (env : Env) (model_path : String)
    (input_data : List (String × PyVal)) : Except String Response :=
  if !(env.fileExists model_path) then
    get_fallback_prediction model_path input_data
  else
    let model_type := get_model_type model_path
    match predictTry env model_path model_type input_data with
    | .ok r => .ok r
    | .error _ => get_fallback_prediction model_path input_data

/-- Exactly one of three slots is 1 and the others are 0. -/
def oneHot3 (a b c : ℚ) : Prop :=
  (a = 1 ∧ b = 0 ∧ c = 0) ∨ (a = 0 ∧ b = 1 ∧ c = 0) ∨ (a = 0 ∧ b = 0 ∧ c = 1)

/-- Exactly one of five slots is 1 and the others are 0. -/
def oneHot5 (a b c d e : ℚ) : Prop :=
  (a = 1 ∧ b = 0 ∧ c = 0 ∧ d = 0 ∧ e = 0) ∨
  (a = 0 ∧ b = 1 ∧ c = 0 ∧ d = 0 ∧ e = 0) ∨
  (a = 0 ∧ b = 0 ∧ c = 1 ∧ d = 0 ∧ e = 0) ∨
  (a = 0 ∧ b = 0 ∧ c = 0 ∧ d = 1 ∧ e = 0) ∨
  (a = 0 ∧ b = 0 ∧ c = 0 ∧ d = 0 ∧ e = 1)

instance (a b c : ℚ) : Decidable (oneHot3 a b c) := by
  unfold oneHot3
  infer_instance

instance (a b c d e : ℚ) : Decidable (oneHot5 a b c d e) := by
  unfold oneHot5
  infer_instance

/-- Modelled from the spec: the weather rule as worded in section 4.2 step 4
("`Fog` if condition == \"Fog\" OR temperature < 10; else `Rain` if
condition == \"Rain\" OR temperature > 35; else `Clear`"), as a pure triple
(Clear, Fog, Rain) over a numeric temperature. -/
def weatherRule (c : PyVal) (t : ℚ) : ℚ × ℚ × ℚ :=
  if pyEqStr c "Fog" = true ∨ t < 10 then (0, 1, 0)
  else if pyEqStr c "Rain" = true ∨ t > 35 then (0, 0, 1)
  else (1, 0, 0)

/-- Index of the first weather slot in an assembled feature row. -/
def wOff (model_type : String) : Nat :=
  if model_type = "fault" then 14 else 12

/-- Unwrap an `Except`, with a default for the error case. -/
def exGet {α : Type} (e : Except String α) (dflt : α) : α :=
  match e with
  | .ok a => a
  | .error _ => dflt

/-- A timestamp parser that always fails, modelling `pd.to_datetime` raising
on an unparsable argument. -/
def pT0 : PyVal → Option Timestamp := fun _ => none

/-- A fixed clock value: hour 12 on a Wednesday. -/
def now0 : Timestamp := ⟨12, 2⟩

/-- An environment whose artifact store has no files and whose clock is
`now0`. -/
def env0 : Env :=
  { fileExists := fun _ => false
    loadJoblib := fun _ => .error "joblib load failed"
    loadPickle := fun _ => .error "pickle load failed"
    parseTs := pT0
    now := now0 }

/-- An environment where every artifact path exists but neither
deserialization strategy can load it. -/
def envB : Env :=
  { fileExists := fun _ => true
    loadJoblib := fun _ => .error "joblib load failed"
    loadPickle := fun _ => .error "pickle load failed"
    parseTs := pT0
    now := now0 }

/-- A timestamp parser that succeeds on every string, returning 10:00 on a
Monday, modelling `pd.to_datetime` on a well-formed ISO-8601 string. -/
def pT1 : PyVal → Option Timestamp :=
  fun v => match v with
  | .str _ => some ⟨10, 0⟩
  | _ => none

/-- First row of a preprocessing result (the single sample of the 2-D array),
empty on error. -/
def firstRow (e : Except String (List (List ℚ))) : List ℚ :=
  (exGet e []).getD 0 []

/-- Feature row of the empty record, standard family. -/
def c4rowS : List ℚ := firstRow (preprocess_features pT0 now0 [] "standard")

/-- Feature row of the empty record, fault family. -/
def c4rowF : List ℚ := firstRow (preprocess_features pT0 now0 [] "fault")

/-- Feature row of a record with an unrecognized status value. -/
def c2row : List ℚ :=
  firstRow (preprocess_features pT0 now0 [("status", PyVal.str "FAULTY")] "standard")

/-- Feature row of the record from the spec's Fog scenario. -/
def c6row : List ℚ :=
  firstRow (preprocess_features pT0 now0 [("weatherTemp", PyVal.num 5)] "standard")

theorem exceptBind_ok {α β : Type} (x : Except String α) (f : α → Except String β)
    (b : β) : (x >>= f) = Except.ok b ↔ ∃ a, x = Except.ok a ∧ f a = Except.ok b := by
  cases x <;> simp [Bind.bind, Except.bind]

theorem exceptPure_ok {α : Type} (a b : α) :
    (pure a : Except String α) = Except.ok b ↔ a = b := by
  simp [Pure.pure, Except.pure]

theorem weatherOneHot_num (c : PyVal) (t : ℚ) :
    weatherOneHot c (PyVal.num t) = Except.ok (weatherRule c t) := by
  unfold weatherOneHot weatherRule pyLtQ pyGtQ
  cases hf : pyEqStr c "Fog" <;> cases hr : pyEqStr c "Rain" <;>
    by_cases h1 : t < 10 <;> by_cases h2 : t > 35 <;>
      simp [hf, hr, h1, h2, Bind.bind, Except.bind, pure, Except.pure]

theorem weatherOneHot_ok_cases (cond temp : PyVal) (w : ℚ × ℚ × ℚ)
    (h : weatherOneHot cond temp = Except.ok w) :
    w = (0, 1, 0) ∨ w = (0, 0, 1) ∨ w = (1, 0, 0) := by
  unfold weatherOneHot at h
  cases hf : pyEqStr cond "Fog" <;> rw [hf] at h
  · cases hlt : pyLtQ temp 10 with
    | error e => rw [if_neg (by simp)] at h; rw [hlt] at h; simp [Bind.bind, Except.bind] at h
    | ok fog =>
      rw [if_neg (by simp)] at h; rw [hlt] at h
      simp only [Bind.bind, Except.bind] at h
      cases fog with
      | true => simp [pure, Except.pure] at h; simp [h.symm]
      | false =>
        simp only [Bool.false_eq_true, if_false] at h
        cases hr : pyEqStr cond "Rain" <;> rw [hr] at h
        · cases hgt : pyGtQ temp 35 with
          | error e => rw [if_neg (by simp)] at h; rw [hgt] at h; simp [Bind.bind, Except.bind] at h
          | ok rain =>
            rw [if_neg (by simp)] at h; rw [hgt] at h
            cases rain <;> simp [Bind.bind, Except.bind, pure, Except.pure] at h <;> simp [h.symm]
        · rw [if_pos rfl] at h
          simp [Bind.bind, Except.bind, pure, Except.pure] at h
          simp [h.symm]
  · rw [if_pos rfl] at h
    simp [Bind.bind, Except.bind, pure, Except.pure] at h
    simp [h.symm]

theorem statusOneHot_ok_cases (sv : PyVal) (trio : ℚ × ℚ × ℚ)
    (h : statusOneHot sv = Except.ok trio) :
    trio = (1, 0, 0) ∨ trio = (0, 1, 0) ∨ trio = (0, 0, 1) ∨ trio = (0, 0, 0) := by
  unfold statusOneHot at h
  cases hu : pyUpper sv with
  | error e => rw [hu] at h; simp [Bind.bind, Except.bind] at h
  | ok st =>
    rw [hu] at h
    simp only [Bind.bind, Except.bind, pure, Except.pure, Except.ok.injEq] at h
    by_cases h1 : st = "DEGRADED"
    · subst h1; subst h; with_unfolding_all decide
    by_cases h2 : st = "MAINTENANCE"
    · subst h2; subst h; with_unfolding_all decide
    by_cases h3 : st = "OPERATIONAL"
    · subst h3; subst h; with_unfolding_all decide
    · rw [if_neg h1, if_neg h2, if_neg h3] at h
      subst h
      simp

theorem statusOneHot_spec (sv : PyVal) (u : String) (trio : ℚ × ℚ × ℚ)
    (hu : pyUpper sv = Except.ok u)
    (h : statusOneHot sv = Except.ok trio) :
    ((u = "DEGRADED" ∨ u = "MAINTENANCE" ∨ u = "OPERATIONAL") →
        oneHot3 trio.1 trio.2.1 trio.2.2) ∧
    (u ≠ "DEGRADED" → u ≠ "MAINTENANCE" → u ≠ "OPERATIONAL" →
        trio.1 = 0 ∧ trio.2.1 = 0 ∧ trio.2.2 = 0) := by
  unfold statusOneHot at h
  rw [hu] at h
  simp only [Bind.bind, Except.bind, pure, Except.pure, Except.ok.injEq] at h
  subst h
  constructor
  · rintro (h1 | h1 | h1) <;> subst h1 <;> with_unfolding_all decide
  · intro h1 h2 h3
    simp [h1, h2, h3]

theorem stationOneHot_cases (sid : PyVal) :
    stationOneHot sid = [1, 0, 0, 0, 0] ∨ stationOneHot sid = [0, 1, 0, 0, 0] ∨
    stationOneHot sid = [0, 0, 1, 0, 0] ∨ stationOneHot sid = [0, 0, 0, 1, 0] ∨
    stationOneHot sid = [0, 0, 0, 0, 1] := by
  cases sid with
  | str s =>
    by_cases h0 : s = "STATION_000"
    · subst h0; with_unfolding_all decide
    by_cases h1 : s = "STATION_001"
    · subst h1; with_unfolding_all decide
    by_cases h2 : s = "STATION_002"
    · subst h2; with_unfolding_all decide
    by_cases h3 : s = "STATION_003"
    · subst h3; with_unfolding_all decide
    by_cases h4 : s = "STATION_004"
    · subst h4; with_unfolding_all decide
    · left
      simp [stationOneHot, station_ids, pyEqStr, beq_iff_eq, h0, h1, h2, h3, h4]
  | num q => left; simp [stationOneHot, station_ids, pyEqStr]
  | pynone => left; simp [stationOneHot, station_ids, pyEqStr]
  | list xs => left; simp [stationOneHot, station_ids, pyEqStr]
  | dict kvs => left; simp [stationOneHot, station_ids, pyEqStr]

theorem resolveFieldsAt_ok (ts : Timestamp) (d : List (String × PyVal)) (r : Resolved)
    (h : resolveFieldsAt ts d = Except.ok r) :
    weatherOneHot (pyGet2 d "weather_condition" "weatherCondition" (.str "Clear"))
        (pyGet2 d "weather_temp" "weatherTemp" (.num 25)) = Except.ok r.weather ∧
    statusOneHot (pyGet d "status" (.str "OPERATIONAL")) = Except.ok r.statusT ∧
    r.station_one_hot =
      stationOneHot (pyGet2 d "station_id" "stationId" (.str "STATION_000")) ∧
    r.hour_of_day = ts.hour := by
  unfold resolveFieldsAt at h
  simp only [exceptBind_ok, exceptPure_ok] at h
  obtain ⟨awD, hA, abD, hB, w, hw, st, hs, hr⟩ := h
  subst hr
  exact ⟨hw, hs, rfl, rfl⟩

theorem buildVector_fault (r : Resolved) (fv : List ℚ)
    (h : buildVector "fault" r = Except.ok fv) :
    ∃ q ab tb ac tc aw pu pc sr es, fv = [q, ab, tb, ac, tc, aw, pu, pc,
      (r.hour_of_day : ℚ), (r.day_of_week : ℚ), r.is_peak_hour, r.traffic_factor,
      sr, es, r.weather.1, r.weather.2.1, r.weather.2.2,
      r.statusT.1, r.statusT.2.1, r.statusT.2.2,
      r.station_one_hot.getD 0 0, r.station_one_hot.getD 1 0, r.station_one_hot.getD 2 0,
      r.station_one_hot.getD 3 0, r.station_one_hot.getD 4 0] := by
  unfold buildVector at h
  rw [if_pos rfl] at h
  simp only [exceptBind_ok, exceptPure_ok] at h
  obtain ⟨q, hq, ab, hab, tb, htb, ac, hac, tc, htc, aw, haw, pu, hpu, pc, hpc,
    sr, hsr, es, hes, h⟩ := h
  exact ⟨q, ab, tb, ac, tc, aw, pu, pc, sr, es, h.symm⟩

theorem buildVector_std (mt : String) (hm : mt ≠ "fault") (r : Resolved) (fv : List ℚ)
    (h : buildVector mt r = Except.ok fv) :
    ∃ ab tb ac tc pu pc sr es, fv = [ab, tb, ac, tc, pu, pc,
      (r.hour_of_day : ℚ), (r.day_of_week : ℚ), r.is_peak_hour, r.traffic_factor,
      sr, es, r.weather.1, r.weather.2.1, r.weather.2.2,
      r.statusT.1, r.statusT.2.1, r.statusT.2.2,
      r.station_one_hot.getD 0 0, r.station_one_hot.getD 1 0, r.station_one_hot.getD 2 0,
      r.station_one_hot.getD 3 0, r.station_one_hot.getD 4 0] := by
  unfold buildVector at h
  rw [if_neg hm] at h
  simp only [exceptBind_ok, exceptPure_ok] at h
  obtain ⟨ab, hab, tb, htb, ac, hac, tc, htc, pu, hpu, pc, hpc, sr, hsr, es, hes, h⟩ := h
  exact ⟨ab, tb, ac, tc, pu, pc, sr, es, h.symm⟩

theorem preprocess_ok (pT : PyVal → Option Timestamp) (now : Timestamp)
    (d : List (String × PyVal)) (mt : String) (v : List (List ℚ))
    (h : preprocess_features pT now d mt = Except.ok v) :
    ∃ r fv, resolveFieldsAt (resolveTs pT now d) d = Except.ok r ∧
      buildVector mt r = Except.ok fv ∧ v = [fv] := by
  unfold preprocess_features resolveFields at h
  simp only [exceptBind_ok, exceptPure_ok] at h
  obtain ⟨r, hr, fv, hfv, hv⟩ := h
  exact ⟨r, fv, hr, hfv, hv.symm⟩

/-- C5: `get_model_type` lower-cases the base filename and returns `fault` if
it contains "fault", else `recommender` if it contains "recommender", else
`llm` if it contains "gemini" or "llm", else `standard`; being a plain Lean
function of the path it is pure and total, and it agrees with the spec's
classifier on every model identifier. -/
theorem C5_classifier_agrees_with_spec (p : String) :
    get_model_type p = classifySpec p := by
  unfold get_model_type classifySpec
  cases hg : strIn "gemini" ((basename p).toLower) <;>
    cases hl : strIn "llm" ((basename p).toLower) <;>
      simp [hg, hl]

/-- C4: whenever preprocessing succeeds, the "standard" family yields a
single row of exactly 23 features and the "fault" family exactly 25; the
length is forced by the per-family assembly and never depends on the
record's values. -/
theorem C4_feature_vector_lengths (pT : PyVal → Option Timestamp)
    (now : Timestamp) (d : List (String × PyVal)) :
    (∀ v, preprocess_features pT now d "standard" = Except.ok v →
      ∃ row, v = [row] ∧ row.length = 23) ∧
    (∀ v, preprocess_features pT now d "fault" = Except.ok v →
      ∃ row, v = [row] ∧ row.length = 25) := by
  constructor
  · intro v h
    obtain ⟨r, fv, hr, hfv, hv⟩ := preprocess_ok pT now d "standard" v h
    obtain ⟨ab, tb, ac, tc, pu, pc, sr, es, hfv2⟩ :=
      buildVector_std "standard" (by decide) r fv hfv
    exact ⟨fv, hv, by simp [hfv2]⟩
  · intro v h
    obtain ⟨r, fv, hr, hfv, hv⟩ := preprocess_ok pT now d "fault" v h
    obtain ⟨q, ab, tb, ac, tc, aw, pu, pc, sr, es, hfv2⟩ := buildVector_fault r fv hfv
    exact ⟨fv, hv, by simp [hfv2]⟩

theorem C4_feature_vector_lengths_witness :
    (∃ row, ([c4rowS] : List (List ℚ)) = [row] ∧ row.length = 23) ∧
    (∃ row, ([c4rowF] : List (List ℚ)) = [row] ∧ row.length = 25) :=
  ⟨(C4_feature_vector_lengths pT0 now0 []).1 [c4rowS] (by with_unfolding_all rfl),
   (C4_feature_vector_lengths pT0 now0 []).2 [c4rowF] (by with_unfolding_all rfl)⟩

/-- C2 as stated is false on the code: a record whose status value is not one
of the three recognized strings produces an all-zero status group instead of
defaulting to OPERATIONAL; here slots 15-17 of the standard row are the
status one-hot. -/
theorem C2_counterexample :
    preprocess_features pT0 now0 [("status", PyVal.str "FAULTY")] "standard" =
      Except.ok [c2row] ∧
    ¬ oneHot3 (c2row.getD 15 0) (c2row.getD 16 0) (c2row.getD 17 0) := by
  constructor
  · with_unfolding_all rfl
  · with_unfolding_all decide

/-- C2 (amended): for every record and family, the weather group is exactly
one-hot and the station group is exactly one-hot (unrecognized ids defaulting
to the STATION_000 slot), while the status slots carry exactly one 1 when
the upper-cased status value is DEGRADED, MAINTENANCE or OPERATIONAL, and
are all 0 for any other status value. -/
theorem C2_one_hot_amended (pT : PyVal → Option Timestamp) (now : Timestamp)
    (d : List (String × PyVal)) (mt : String) (row : List ℚ) (u : String)
    (hu : pyUpper (pyGet d "status" (PyVal.str "OPERATIONAL")) = Except.ok u)
    (h : preprocess_features pT now d mt = Except.ok [row]) :
    oneHot3 (row.getD (wOff mt) 0) (row.getD (wOff mt + 1) 0)
      (row.getD (wOff mt + 2) 0) ∧
    ((u = "DEGRADED" ∨ u = "MAINTENANCE" ∨ u = "OPERATIONAL") →
      oneHot3 (row.getD (wOff mt + 3) 0) (row.getD (wOff mt + 4) 0)
        (row.getD (wOff mt + 5) 0)) ∧
    (u ≠ "DEGRADED" → u ≠ "MAINTENANCE" → u ≠ "OPERATIONAL" →
      row.getD (wOff mt + 3) 0 = 0 ∧ row.getD (wOff mt + 4) 0 = 0 ∧
      row.getD (wOff mt + 5) 0 = 0) ∧
    oneHot5 (row.getD (wOff mt + 6) 0) (row.getD (wOff mt + 7) 0)
      (row.getD (wOff mt + 8) 0) (row.getD (wOff mt + 9) 0)
      (row.getD (wOff mt + 10) 0) := by
  obtain ⟨r, fv, hr, hfv, hv⟩ := preprocess_ok pT now d mt [row] h
  have hrow : row = fv := by simpa using hv
  obtain ⟨hw, hs, hst, _⟩ := resolveFieldsAt_ok _ d r hr
  have hw3 := weatherOneHot_ok_cases _ _ _ hw
  have hsp := statusOneHot_spec _ u _ hu hs
  have hstc := stationOneHot_cases (pyGet2 d "station_id" "stationId" (.str "STATION_000"))
  by_cases hmt : mt = "fault"
  · subst hmt
    obtain ⟨q, ab, tb, ac, tc, aw, pu, pc, sr, es, hfv2⟩ := buildVector_fault r fv hfv
    subst hrow
    subst hfv2
    refine ⟨?_, ?_, ?_, ?_⟩
    · show oneHot3 r.weather.1 r.weather.2.1 r.weather.2.2
      rcases hw3 with h3 | h3 | h3 <;> simp [oneHot3, h3]
    · show (u = "DEGRADED" ∨ u = "MAINTENANCE" ∨ u = "OPERATIONAL") →
        oneHot3 r.statusT.1 r.statusT.2.1 r.statusT.2.2
      exact hsp.1
    · show u ≠ "DEGRADED" → u ≠ "MAINTENANCE" → u ≠ "OPERATIONAL" →
        r.statusT.1 = 0 ∧ r.statusT.2.1 = 0 ∧ r.statusT.2.2 = 0
      exact hsp.2
    · show oneHot5 (r.station_one_hot.getD 0 0) (r.station_one_hot.getD 1 0)
        (r.station_one_hot.getD 2 0) (r.station_one_hot.getD 3 0)
        (r.station_one_hot.getD 4 0)
      rw [hst]
      rcases hstc with h5 | h5 | h5 | h5 | h5 <;> rw [h5] <;>
        with_unfolding_all decide
  · obtain ⟨ab, tb, ac, tc, pu, pc, sr, es, hfv2⟩ := buildVector_std mt hmt r fv hfv
    subst hrow
    subst hfv2
    have hoff : wOff mt = 12 := by unfold wOff; rw [if_neg hmt]
    rw [hoff]
    refine ⟨?_, ?_, ?_, ?_⟩
    · show oneHot3 r.weather.1 r.weather.2.1 r.weather.2.2
      rcases hw3 with h3 | h3 | h3 <;> simp [oneHot3, h3]
    · show (u = "DEGRADED" ∨ u = "MAINTENANCE" ∨ u = "OPERATIONAL") →
        oneHot3 r.statusT.1 r.statusT.2.1 r.statusT.2.2
      exact hsp.1
    · show u ≠ "DEGRADED" → u ≠ "MAINTENANCE" → u ≠ "OPERATIONAL" →
        r.statusT.1 = 0 ∧ r.statusT.2.1 = 0 ∧ r.statusT.2.2 = 0
      exact hsp.2
    · show oneHot5 (r.station_one_hot.getD 0 0) (r.station_one_hot.getD 1 0)
        (r.station_one_hot.getD 2 0) (r.station_one_hot.getD 3 0)
        (r.station_one_hot.getD 4 0)
      rw [hst]
      rcases hstc with h5 | h5 | h5 | h5 | h5 <;> rw [h5] <;>
        with_unfolding_all decide

theorem C2_one_hot_amended_witness :
    oneHot3 (c4rowS.getD (wOff "standard") 0) (c4rowS.getD (wOff "standard" + 1) 0)
      (c4rowS.getD (wOff "standard" + 2) 0) ∧
    oneHot3 (c4rowS.getD (wOff "standard" + 3) 0) (c4rowS.getD (wOff "standard" + 4) 0)
      (c4rowS.getD (wOff "standard" + 5) 0) ∧
    oneHot5 (c4rowS.getD (wOff "standard" + 6) 0) (c4rowS.getD (wOff "standard" + 7) 0)
      (c4rowS.getD (wOff "standard" + 8) 0) (c4rowS.getD (wOff "standard" + 9) 0)
      (c4rowS.getD (wOff "standard" + 10) 0) ∧
    (c2row.getD (wOff "standard" + 3) 0 = 0 ∧ c2row.getD (wOff "standard" + 4) 0 = 0 ∧
     c2row.getD (wOff "standard" + 5) 0 = 0) := by
  have hA := C2_one_hot_amended pT0 now0 [] "standard" c4rowS "OPERATIONAL"
    (by with_unfolding_all rfl) (by with_unfolding_all rfl)
  have hB := C2_one_hot_amended pT0 now0 [("status", PyVal.str "FAULTY")] "standard" c2row
    "FAULTY" (by with_unfolding_all rfl) (by with_unfolding_all rfl)
  exact ⟨hA.1, hA.2.1 (Or.inr (Or.inr rfl)), hA.2.2.2,
         hB.2.2.1 (by decide) (by decide) (by decide)⟩

/-- C6: for a numeric resolved temperature, the weather one-hot triple
(Clear, Fog, Rain) of the assembled row equals the spec's rule — Fog when the
resolved condition equals "Fog" or the temperature is below 10, else Rain
when the condition equals "Rain" or the temperature is above 35, else Clear. -/
theorem C6_weather_rule (pT : PyVal → Option Timestamp) (now : Timestamp)
    (d : List (String × PyVal)) (mt : String) (row : List ℚ) (t : ℚ)
    (ht : pyGet2 d "weather_temp" "weatherTemp" (.num 25) = PyVal.num t)
    (h : preprocess_features pT now d mt = Except.ok [row]) :
    (row.getD (wOff mt) 0, row.getD (wOff mt + 1) 0, row.getD (wOff mt + 2) 0) =
      weatherRule (pyGet2 d "weather_condition" "weatherCondition" (.str "Clear")) t := by
  obtain ⟨r, fv, hr, hfv, hv⟩ := preprocess_ok pT now d mt [row] h
  have hrow : row = fv := by simpa using hv
  obtain ⟨hw, _, _, _⟩ := resolveFieldsAt_ok _ d r hr
  rw [ht, weatherOneHot_num] at hw
  have hw2 : r.weather =
      weatherRule (pyGet2 d "weather_condition" "weatherCondition" (.str "Clear")) t :=
    (Except.ok.inj hw).symm
  by_cases hmt : mt = "fault"
  · subst hmt
    obtain ⟨q, ab, tb, ac, tc, aw, pu, pc, sr, es, hfv2⟩ := buildVector_fault r fv hfv
    subst hrow
    subst hfv2
    show (r.weather.1, r.weather.2.1, r.weather.2.2) = _
    rw [hw2]
  · obtain ⟨ab, tb, ac, tc, pu, pc, sr, es, hfv2⟩ := buildVector_std mt hmt r fv hfv
    subst hrow
    subst hfv2
    have hoff : wOff mt = 12 := by unfold wOff; rw [if_neg hmt]
    rw [hoff]
    show (r.weather.1, r.weather.2.1, r.weather.2.2) = _
    rw [hw2]

theorem C6_weather_rule_witness :
    (c6row.getD 12 0, c6row.getD 13 0, c6row.getD 14 0) = ((0 : ℚ), (1 : ℚ), (0 : ℚ)) := by
  have h := C6_weather_rule pT0 now0 [("weatherTemp", PyVal.num 5)] "standard" c6row 5
    (by with_unfolding_all rfl) (by with_unfolding_all rfl)
  rw [show wOff "standard" = 12 from by with_unfolding_all rfl] at h
  rw [h]
  with_unfolding_all decide

/-- C8 as stated is false on the code: a record can supply a `timestamp` key
whose value does not parse, in which case the current clock is still used and
two runs at different clock values disagree (here at the hour-of-day slot). -/
theorem C8_counterexample :
    preprocess_features pT0 ⟨0, 0⟩ [("timestamp", PyVal.str "garbage")] "standard" ≠
    preprocess_features pT0 ⟨13, 6⟩ [("timestamp", PyVal.str "garbage")] "standard" := by
  intro h
  have h2 := congrArg (fun e => (firstRow e).getD 6 0) h
  exact absurd h2 (by with_unfolding_all decide)

/-- C8 (amended): once a record supplies a `timestamp` value that the parser
accepts, normalization no longer depends on the clock: two runs at arbitrary
clock values yield identical vectors. -/
theorem C8_deterministic_when_parsable (pT : PyVal → Option Timestamp)
    (n1 n2 : Timestamp) (d : List (String × PyVal)) (mt : String)
    (ts : PyVal) (t : Timestamp)
    (hk : d.lookup "timestamp" = some ts) (hp : pT ts = some t) :
    preprocess_features pT n1 d mt = preprocess_features pT n2 d mt := by
  have hts : resolveTs pT n1 d = resolveTs pT n2 d := by
    unfold resolveTs
    rw [hk]
    simp [hp]
  unfold preprocess_features resolveFields
  rw [hts]

theorem C8_deterministic_witness :
    preprocess_features pT1 ⟨1, 1⟩ [("timestamp", PyVal.str "2024-01-01T10:00:00")] "fault" =
    preprocess_features pT1 ⟨20, 6⟩ [("timestamp", PyVal.str "2024-01-01T10:00:00")] "fault" :=
  C8_deterministic_when_parsable pT1 ⟨1, 1⟩ ⟨20, 6⟩
    [("timestamp", PyVal.str "2024-01-01T10:00:00")] "fault"
    (PyVal.str "2024-01-01T10:00:00") ⟨10, 0⟩ (by with_unfolding_all rfl) rfl

/-- C10: weather-condition matching is case-sensitive — any condition string
other than exactly "Fog"/"Rain" together with a temperature in [10, 35]
yields the Clear one-hot — while status matching is case-insensitive: any
casing whose upper-case form is "DEGRADED" sets the DEGRADED slot. -/
theorem C10_case_sensitivity :
    (∀ (s : String) (t : ℚ), (s.toLower = "fog" ∨ s.toLower = "rain") →
      s ≠ "Fog" → s ≠ "Rain" → 10 ≤ t → t ≤ 35 →
      weatherOneHot (PyVal.str s) (PyVal.num t) = Except.ok (1, 0, 0)) ∧
    (∀ s : String, s.toUpper = "DEGRADED" →
      statusOneHot (PyVal.str s) = Except.ok (1, 0, 0)) := by
  constructor
  · intro s t _ hf hr h10 h35
    have e1 : pyEqStr (PyVal.str s) "Fog" = false := by simp [pyEqStr, hf]
    have e2 : pyEqStr (PyVal.str s) "Rain" = false := by simp [pyEqStr, hr]
    rw [weatherOneHot_num]
    simp [weatherRule, e1, e2, not_lt.mpr h10, not_lt.mpr h35]
  · intro s h
    simp [statusOneHot, pyUpper, h, Bind.bind, Except.bind, pure, Except.pure]

theorem C10_case_sensitivity_witness :
    weatherOneHot (PyVal.str "fOg") (PyVal.num 20) = Except.ok (1, 0, 0) ∧
    statusOneHot (PyVal.str "Degraded") = Except.ok (1, 0, 0) :=
  ⟨C10_case_sensitivity.1 "fOg" 20 (Or.inl (by with_unfolding_all decide))
      (by decide) (by decide) (by with_unfolding_all decide) (by with_unfolding_all decide),
   C10_case_sensitivity.2 "Degraded" (by with_unfolding_all decide)⟩

/-- C7: with a missing artifact, the queue model echoes the resolved
`current_queue` tagged as fallback, and with an artifact that exists but that
neither deserialization strategy can load, the fault model returns the fixed
fault fallback `{prediction: 0.15, probabilities: [0.85, 0.15],
fallback: true}`. -/
theorem C7_fallback_scenarios :
    (∀ env : Env, env.fileExists "models/xgb_queue.pkl" = false →
      predict env "models/xgb_queue.pkl" [("current_queue", PyVal.num 7)] =
        Except.ok { prediction := some (.num 7), fallback := true }) ∧
    (∀ (env : Env) (e1 e2 : String),
      env.fileExists "models/lgbm_fault_tuned_model.pkl" = true →
      env.loadJoblib "models/lgbm_fault_tuned_model.pkl" = Except.error e1 →
      env.loadPickle "models/lgbm_fault_tuned_model.pkl" = Except.error e2 →
      predict env "models/lgbm_fault_tuned_model.pkl" [("weather_temp", PyVal.num 40)] =
        Except.ok { prediction := some (.num 0.15), probabilities := some [0.85, 0.15],
                    fallback := true }) := by
  constructor
  · intro env h
    unfold predict
    rw [h]
    with_unfolding_all rfl
  · intro env e1 e2 h1 h2 h3
    unfold predict predictTry
    rw [h1, h2, h3]
    with_unfolding_all rfl

theorem C7_fallback_scenarios_witness :
    predict env0 "models/xgb_queue.pkl" [("current_queue", PyVal.num 7)] =
      Except.ok { prediction := some (.num 7), fallback := true } ∧
    predict envB "models/lgbm_fault_tuned_model.pkl" [("weather_temp", PyVal.num 40)] =
      Except.ok { prediction := some (.num 0.15), probabilities := some [0.85, 0.15],
                  fallback := true } :=
  ⟨C7_fallback_scenarios.1 env0 rfl,
   C7_fallback_scenarios.2 envB "joblib load failed" "pickle load failed" rfl rfl rfl⟩

/-- C9: the fallback predictor resolves `current_queue` only through the keys
`current_queue` and `currentQueue` (default 5) — ignoring the `queue_length`
alias the normalizer honors — so with missing artifacts a queue model echoes
that narrower resolution and a wait model returns three times it. -/
theorem C9_fallback_narrow_queue_resolution (env : Env) (d : List (String × PyVal)) (q : ℚ)
    (h1 : env.fileExists "models/xgb_queue.pkl" = false)
    (h2 : env.fileExists "models/xgb_wait.pkl" = false)
    (hq : pyGet2 d "current_queue" "currentQueue" (PyVal.num 5) = PyVal.num q) :
    predict env "models/xgb_queue.pkl" d =
      Except.ok { prediction := some (.num q), fallback := true } ∧
    predict env "models/xgb_wait.pkl" d =
      Except.ok { prediction := some (.num (q * 3)), fallback := true } := by
  constructor
  · unfold predict
    rw [h1]
    unfold get_fallback_prediction
    rw [hq]
    with_unfolding_all rfl
  · unfold predict
    rw [h2]
    unfold get_fallback_prediction
    rw [hq]
    with_unfolding_all rfl

theorem C9_fallback_narrow_queue_resolution_witness :
    predict env0 "models/xgb_queue.pkl" [("queue_length", PyVal.num 7)] =
      Except.ok { prediction := some (.num 5), fallback := true } ∧
    predict env0 "models/xgb_wait.pkl" [("queue_length", PyVal.num 7)] =
      Except.ok { prediction := some (.num 15), fallback := true } := by
  have h := C9_fallback_narrow_queue_resolution env0 [("queue_length", PyVal.num 7)] 5
    rfl rfl (by with_unfolding_all rfl)
  have e : (5 : ℚ) * 3 = 15 := by norm_num
  rw [e] at h
  exact h

/-- C1 fails on the code: with a missing queue-model artifact and a record
whose `current_queue` is a non-numeric string, `get_fallback_prediction`
itself raises (`float("abc")`) outside any try/except, so the error escapes
the `/predict` handler instead of becoming a fallback response. -/
theorem C1_fallback_raises :
    predict env0 "models/xgb_queue.pkl" [("current_queue", PyVal.str "abc")] =
      Except.error "ValueError: could not convert string to float" := by
  with_unfolding_all rfl

/-- C3 fails on the code: normalization is not total — a nested object where
a scalar is expected makes the eagerly-evaluated default `current_queue * 3`
raise a TypeError, which propagates out of `preprocess_features`. -/
theorem C3_normalize_not_total :
    preprocess_features pT0 now0 [("current_queue", PyVal.dict [])] "fault" =
      Except.error "TypeError: unsupported operand type for mult" := by
  with_unfolding_all rfl
